import Mathlib

/-
  Verification development for the ustore Rust binding layer.

  Embedded source files:
    - src/rust/src/error.rs  : the DataStoreError enum.
    - src/rust/src/lib.rs    : the Database handle type and its operations
      (Default::default, new, contains_key, close).
    - src/rust/build.rs      : the build pipeline (cmake configure, make
      compile, gcc header expansion, link directives, bindgen generation).

  Modelling conventions:
    - Pointers are abstract addresses (Nat); 0 plays no special role except
      that a value 0 stored in an error slot stands for a null error string.
    - Each Rust function that creates local temporaries is given a fresh
      address counter σ; the temporaries it creates get addresses σ, σ+1, ...
      Distinct live objects have distinct addresses.
    - Calls into the native library (ukv_database_init, ukv_database_free)
      are opaque: they are recorded in an explicit trace of NativeCall
      events, and the effect of ukv_database_init is a parameter (a function
      from the passed struct to the mutated struct plus the memory written
      through its out-pointers).
    - build.rs is embedded as a function of the outcomes of the external
      processes it spawns and of its fallible steps; it returns an outcome
      (ok / returned error / panic) together with the ordered trace of
      observable events (process runs, printed lines, surfaced diagnostic
      bytes, binding generation).  The io::Result of each of the six
      write_all calls is an input too, since `?` propagates its failure;
      an ExitStatus is rendered as its integer.
-/

/-! ## Runtime model: error.rs -/

/-- Mirrors DataStoreError from src/rust/src/error.rs: a single variant
`Unknown` whose display message is "unknown data store error". -/
inductive DataStoreError where
  | Unknown
deriving Repr, DecidableEq

/-- Mirrors the `#[error("unknown data store error")]` display string. -/
def DataStoreError.message : DataStoreError → String
  | DataStoreError.Unknown => "unknown data store error"

/-! ## Runtime model: lib.rs -/

/-- Abstract machine address. -/
abbrev Ptr := Nat

/-- Mirrors bindings::ukv_database_init_t as used in lib.rs: a struct with an
error out-slot pointer, a configuration string pointer and a database slot
pointer.  Field order follows the struct literal in lib.rs; it carries no
semantic weight. -/
structure ukv_database_init_t where
  error : Ptr
  config : Ptr
  db : Ptr
deriving Repr, DecidableEq

/-- Mirrors `pub struct Database { pub db: UkvDatabaseInitType }`. -/
structure Database where
  db : ukv_database_init_t
deriving Repr, DecidableEq

/-- The two native entry points lib.rs calls, recorded as trace events with
the argument passed at call time. -/
inductive NativeCall where
  | init (arg : ukv_database_init_t)
  | free (ptr : Ptr)
deriving Repr, DecidableEq

/-- Effect of one ukv_database_init call: the struct as mutated through the
`&mut` reference, and the memory contents after the call (address → stored
word; storing 0 at the error slot address means the error string pointer was
left null). -/
structure InitEffect where
  struct : ukv_database_init_t
  mem : Ptr → Nat

/-- Behaviour of the opaque native ukv_database_init entry point. -/
abbrev NativeInitBeh := ukv_database_init_t → InitEffect

/-- Mirrors `impl Default for Database { fn default() }` in lib.rs: build a
default (empty) CString and take its pointer (address σ), take the address of
a temporary error-pointer slot (σ+1), cast the address of a local unit to a
void pointer (σ+2), pack the three into a ukv_database_init_t, call the
native init once with that struct, and wrap whatever comes back — the error
slot is never read and no error is ever returned. -/
def Database.default (beh : NativeInitBeh) (σ : Ptr) :
    Database × (Ptr → Nat) × List NativeCall :=
  let config : Ptr := σ
  let error : Ptr := σ + 1
  let void_fn : Ptr := σ + 2
  let arg : ukv_database_init_t := { error := error, config := config, db := void_fn }
  let eff := beh arg
  ({ db := eff.struct }, eff.mem, [NativeCall.init arg])

/-- Mirrors `Database::new` in lib.rs; its body is textually identical to the
body of `Default::default`. -/
def Database.new (beh : NativeInitBeh) (σ : Ptr) :
    Database × (Ptr → Nat) × List NativeCall :=
  let config : Ptr := σ
  let error : Ptr := σ + 1
  let void_fn : Ptr := σ + 2
  let arg : ukv_database_init_t := { error := error, config := config, db := void_fn }
  let eff := beh arg
  ({ db := eff.struct }, eff.mem, [NativeCall.init arg])

/-- Mirrors `pub fn contains_key() {}` in lib.rs: no parameters, empty body,
unit result, no native calls. -/
def Database.contains_key : Unit × List NativeCall := ((), [])

/-- Mirrors `pub fn close() -> Result<(), DataStoreError>` in lib.rs.  Note
that in the source `close` takes no receiver and no arguments: it creates a
fresh local unit value, casts its address (σ) to a void pointer, passes that
pointer to ukv_database_free, and returns Ok(()). -/
def Database.close (σ : Ptr) : Except DataStoreError Unit × List NativeCall :=
  let void_fn : Ptr := σ
  (Except.ok (), [NativeCall.free void_fn])

/-- Drop glue of Database: lib.rs declares no `impl Drop for Database`, and
its only field is a plain struct of raw pointers, so letting a Database go
out of scope runs no code and performs no native call. -/
def Database.drop (_d : Database) : List NativeCall := []

/-- Number of ukv_database_free calls in a trace. -/
def countFree (calls : List NativeCall) : Nat :=
  calls.countP fun c =>
    match c with
    | NativeCall.free _ => true
    | NativeCall.init _ => false

/-- A whole scope: construct a Database with `new`, then let it go out of
scope (running its drop glue).  The result is the full native-call trace of
that scope. -/
def newThenScopeEnd (beh : NativeInitBeh) (σ : Ptr) : List NativeCall :=
  let r := Database.new beh σ
  r.2.2 ++ Database.drop r.1

/-- A native init behaviour that reports failure: it leaves the struct
unchanged and writes the non-null value 42 (an error string address) through
the error slot pointer. -/
def errBeh : NativeInitBeh := fun arg =>
  { struct := arg, mem := fun p => if p = arg.error then 42 else 0 }

/-- A native init behaviour that reports success: it stores the opaque handle
address 7 in the struct's db field and leaves the error slot null. -/
def okBeh : NativeInitBeh := fun arg =>
  { struct := { arg with db := 7 }, mem := fun _ => 0 }

/-! ## Build model: build.rs -/

/-- The build-time backend toggle set from the spec's data model: the three
storage engines plus the two Arrow Flight RPC front ends.  In build.rs the
first three correspond to cargo features consulted via cfg!; the two flight
toggles are listed here because the spec's BackendFlagSet has them, but
build.rs never consults them. -/
structure BackendFlagSet where
  umem : Bool
  leveldb : Bool
  rocksdb : Bool
  flight_client : Bool
  flight_server : Bool
deriving Repr, DecidableEq

/-- The argument list build.rs passes to the cmake configure step, in source
order.  The three engine definitions take 1 or 0 from the corresponding
feature flag; the two flight API definitions are hardcoded to 0. -/
def cmakeArgs (f : BackendFlagSet) : List String :=
  ["-DCMAKE_C_COMPILER=gcc",
   "-DCMAKE_CXX_COMPILER=g++",
   "-DUKV_BUILD_TESTS=0",
   "-DUKV_BUILD_BENCHMARKS=0",
   "-DUKV_BUILD_BUNDLES=1",
   "-DUKV_BUILD_ENGINE_UMEM=" ++ (if f.umem then "1" else "0"),
   "-DUKV_BUILD_ENGINE_LEVELDB=" ++ (if f.leveldb then "1" else "0"),
   "-DUKV_BUILD_ENGINE_ROCKSDB=" ++ (if f.rocksdb then "1" else "0"),
   "-DUKV_BUILD_API_FLIGHT_CLIENT=0",
   "-DUKV_BUILD_API_FLIGHT_SERVER=0",
   "-B ./build_release"]

/-- The argument list of the make compile step: parallel jobs equal to the
host core count, directory ./build_release. -/
def makeArgs (ncpus : Nat) : List String :=
  ["-j" ++ toString ncpus, "-C", "./build_release"]

/-- The argument list of the gcc header expansion step. -/
def gccArgs (src : String) : List String :=
  ["-E", "-I", src ++ "/include", "-I", src ++ "/include/ukv",
   "wrapper.h", "-o", "wrapper.expanded.h"]

/-- The static libraries build.rs emits link directives for, in source order
(umem, rocksdb, leveldb); each is guarded by the same-named cargo feature.
No flight library is ever linked. -/
def linkLibs (f : BackendFlagSet) : List String :=
  (if f.umem then ["umem_bundle"] else []) ++
  (if f.rocksdb then ["rocksdb_bundle"] else []) ++
  (if f.leveldb then ["leveldb_bundle"] else [])

/-- Captured outcome of one spawned process: its exit status (rendered as an
integer) and its captured stdout and stderr bytes. -/
structure CmdOutput where
  status : Int
  stdout : List Nat
  stderr : List Nat
deriving Repr, DecidableEq

/-- Observable events of one build.rs run, in order. -/
inductive BuildEvent where
  | runCmake (dir : String) (args : List String)
  | runMake (dir : String) (args : List String)
  | runGcc (args : List String)
  | printLine (s : String)
  | surfaceOut (bytes : List Nat)
  | surfaceErr (bytes : List Nat)
  | generateBindings (header : String)
  | writeBindingsFile
deriving Repr, DecidableEq

/-- How one build.rs run ends: Ok(()), an Err propagated by `?`, or a panic
raised by `.expect` when a process could not be spawned. -/
inductive BuildOutcome where
  | ok
  | errored
  | panicked (msg : String)
deriving Repr, DecidableEq

namespace BuildRs

/-- Mirrors `fn main` of src/rust/build.rs.  Inputs are the results of its
environment interactions, in source order: get_parent_dir (`?`), the spawn
results of the cmake, make and gcc processes (None = spawn failure, on which
`.expect` panics with the source's message), the io::Results of the six
write_all calls that surface each process's captured stdout and stderr (each
used with `?`, so a failed write ends the run with Err at that point), the
OUT_DIR variable (`?`), the bindgen generate call (`?`) and the
write_to_file call (`?`).  The exit STATUS of a spawned process is only
printed — it is never branched on: a non-zero cmake, make or gcc status
still reaches binding generation. -/
def main (f : BackendFlagSet) (ncpus : Nat)
    (parentDir : Except Unit String)
    (cmakeOut makeOut gccOut : Option CmdOutput)
    (cmakeOutWrite cmakeErrWrite makeOutWrite makeErrWrite gccOutWrite gccErrWrite :
      Except Unit Unit)
    (outDirVar : Except Unit String)
    (genResult writeResult : Except Unit Unit) :
    BuildOutcome × List BuildEvent :=
  match parentDir with
  | Except.error _ => (BuildOutcome.errored, [])
  | Except.ok src =>
    match cmakeOut with
    | none => (BuildOutcome.panicked "Could not spawn a `cmake` process",
               [BuildEvent.runCmake src (cmakeArgs f)])
    | some c =>
      let ev1 : List BuildEvent :=
        [BuildEvent.runCmake src (cmakeArgs f),
         BuildEvent.printLine ("CMake: " ++ toString c.status)]
      match cmakeOutWrite with
      | Except.error _ => (BuildOutcome.errored, ev1)
      | Except.ok _ =>
        let ev2 : List BuildEvent := ev1 ++ [BuildEvent.surfaceOut c.stdout]
        match cmakeErrWrite with
        | Except.error _ => (BuildOutcome.errored, ev2)
        | Except.ok _ =>
          let ev3 : List BuildEvent := ev2 ++ [BuildEvent.surfaceErr c.stderr]
          match makeOut with
          | none => (BuildOutcome.panicked "Could not spawn a `make` process",
                     ev3 ++ [BuildEvent.runMake src (makeArgs ncpus)])
          | some m =>
            let ev4 : List BuildEvent :=
              ev3 ++ [BuildEvent.runMake src (makeArgs ncpus),
                      BuildEvent.printLine ("Make: " ++ toString m.status)]
            match makeOutWrite with
            | Except.error _ => (BuildOutcome.errored, ev4)
            | Except.ok _ =>
              let ev5 : List BuildEvent := ev4 ++ [BuildEvent.surfaceOut m.stdout]
              match makeErrWrite with
              | Except.error _ => (BuildOutcome.errored, ev5)
              | Except.ok _ =>
                let ev6 : List BuildEvent := ev5 ++ [BuildEvent.surfaceErr m.stderr]
                match gccOut with
                | none => (BuildOutcome.panicked "Could not spawn a `gcc` expansion process",
                           ev6 ++ [BuildEvent.runGcc (gccArgs src)])
                | some g =>
                  let ev7 : List BuildEvent :=
                    ev6 ++ [BuildEvent.runGcc (gccArgs src),
                            BuildEvent.printLine ("GCC: " ++ toString g.status)]
                  match gccOutWrite with
                  | Except.error _ => (BuildOutcome.errored, ev7)
                  | Except.ok _ =>
                    let ev8 : List BuildEvent := ev7 ++ [BuildEvent.surfaceOut g.stdout]
                    match gccErrWrite with
                    | Except.error _ => (BuildOutcome.errored, ev8)
                    | Except.ok _ =>
                      let ev9 : List BuildEvent :=
                        ev8 ++ [BuildEvent.surfaceErr g.stderr,
                                BuildEvent.printLine
                                  ("cargo:rustc-link-search=native=" ++ src ++ "/build_release/build/lib")]
                        ++ (linkLibs f).map
                             (fun l => BuildEvent.printLine ("cargo:rustc-link-lib=static=" ++ l))
                      match outDirVar with
                      | Except.error _ => (BuildOutcome.errored, ev9)
                      | Except.ok _ =>
                        match genResult with
                        | Except.error _ =>
                          (BuildOutcome.errored,
                           ev9 ++ [BuildEvent.generateBindings "wrapper.expanded.h"])
                        | Except.ok _ =>
                          match writeResult with
                          | Except.error _ =>
                            (BuildOutcome.errored,
                             ev9 ++ [BuildEvent.generateBindings "wrapper.expanded.h",
                                     BuildEvent.writeBindingsFile])
                          | Except.ok _ =>
                            (BuildOutcome.ok,
                             ev9 ++ [BuildEvent.generateBindings "wrapper.expanded.h",
                                     BuildEvent.writeBindingsFile,
                                     BuildEvent.printLine "cargo:rerun-if-changed=wrapper.h"])

/-- A run of build.rs in which every environment interaction succeeds (the
parent-directory lookup succeeds, all three processes spawn, all six
write_all calls succeed, OUT_DIR is set, generation and writing succeed);
the three process exit statuses are unconstrained. -/
def happyPath (f : BackendFlagSet) (ncpus : Nat) (src out : String)
    (c m g : CmdOutput) : BuildOutcome × List BuildEvent :=
  main f ncpus (Except.ok src) (some c) (some m) (some g)
    (Except.ok ()) (Except.ok ()) (Except.ok ()) (Except.ok ()) (Except.ok ()) (Except.ok ())
    (Except.ok out) (Except.ok ()) (Except.ok ())

end BuildRs

/-- The all-disabled flag set (no cargo feature enabled; the default). -/
def allOff : BackendFlagSet :=
  { umem := false, leveldb := false, rocksdb := false,
    flight_client := false, flight_server := false }

/-- The flag set of spec Scenario B: only rocksdb enabled. -/
def rocksdbOnly : BackendFlagSet :=
  { umem := false, leveldb := false, rocksdb := true,
    flight_client := false, flight_server := false }

/-- A flag set with both flight toggles enabled and all storage engines off. -/
def flightOn : BackendFlagSet :=
  { umem := false, leveldb := false, rocksdb := false,
    flight_client := true, flight_server := true }

/-- A configure step that exited with status 1, with one byte of stdout and
one byte of stderr diagnostics. -/
def cexCmakeOut : CmdOutput := { status := 1, stdout := [65], stderr := [66] }

/-- A process outcome with exit status 0 and empty output. -/
def okOut : CmdOutput := { status := 0, stdout := [], stderr := [] }

/-! ## Claims about the Handle Lifecycle Manager (lib.rs) -/

/-- C1, counterexample to the claim as stated.  With the native behaviour
errBeh that writes the non-null value 42 through the error slot (address 1
for σ = 0), Database.new still constructs and returns a Database wrapping the
struct — a transition to Open — and its trace contains no free call; the
function has no error channel at all, so no typed error value was or could be
returned.  The claim said that with a non-null error slot the operation does
not transition to Open and returns a decoded typed error. -/
theorem c1_claim_counterexample :
    (Database.new errBeh 0).2.1 1 = 42 ∧
    (Database.new errBeh 0).1 = { db := { error := 1, config := 0, db := 2 } } ∧
    countFree (Database.new errBeh 0).2.2 = 0 := by
  refine ⟨rfl, rfl, rfl⟩

/-- C1, amended: Database::new builds the default configuration pointer,
allocates the error and output slots (addresses σ+1 and σ+2), invokes the
native init entry point exactly once with that struct, and unconditionally
wraps the resulting struct in a Database.  It never inspects the error slot
(the returned Database is exactly the wrapped struct, independent of the
memory the native call wrote), never returns an error (its result type has no
error channel), never panics, and never attempts a free call. -/
theorem c1_amended_init_unconditional : ∀ (beh : NativeInitBeh) (σ : Ptr),
    (Database.new beh σ).1 =
      { db := (beh { error := σ + 1, config := σ, db := σ + 2 }).struct } ∧
    (Database.new beh σ).2.2 =
      [NativeCall.init { error := σ + 1, config := σ, db := σ + 2 }] ∧
    countFree (Database.new beh σ).2.2 = 0 :=
  fun _ _ => ⟨rfl, rfl, rfl⟩

/-- C2, evaluation at the failing input.  A Database constructed by a
successful init (okBeh, σ = 0) owns the opaque handle address 7, yet a close
call (fresh-locals counter 200) passes only the address 200 of its own fresh
local unit value to ukv_database_free: the owned pointer 7 is never passed to
the native free entry point, contradicting the claim that close frees the
pointer produced by init. -/
theorem c2_close_ignores_handle_eval :
    (Database.new okBeh 0).1.db.db = 7 ∧
    (Database.close 200).2 = [NativeCall.free 200] ∧
    NativeCall.free 7 ∉ (Database.close 200).2 ∧
    (Database.close 200).1 = Except.ok () := by
  refine ⟨rfl, rfl, ?_, rfl⟩
  intro h
  simp [Database.close] at h

/-- C6, counterexample to the claim as stated.  A close call performed after
any earlier close (the operation takes no state, so this is any subsequent
call, here with fresh-locals counter 200) is neither a no-op nor an error: it
performs exactly one native free call and returns Ok. -/
theorem c6_claim_counterexample :
    (Database.close 200).2 ≠ [] ∧
    (Database.close 200).1 = Except.ok () ∧
    countFree (Database.close 200).2 = 1 := by
  refine ⟨?_, rfl, rfl⟩
  intro h
  simp [Database.close] at h

/-- C6, amended: a close call after the Database is already closed (like
every close call) never passes the Database's handle pointer p to the native
free entry point — the pointer it frees is the address of a fresh local unit
value, distinct from the handle — and it deterministically returns Ok rather
than an error; but it is not a no-op: each close call invokes the native free
entry point exactly once on that fresh pointer. -/
theorem c6_amended_second_close : ∀ (p σ : Ptr), σ ≠ p →
    NativeCall.free p ∉ (Database.close σ).2 ∧
    (Database.close σ).1 = Except.ok () ∧
    countFree (Database.close σ).2 = 1 := by
  intro p σ h
  refine ⟨?_, rfl, rfl⟩
  intro hmem
  simp [Database.close] at hmem
  exact h hmem.symm

/-- C6, witness: the amended statement at the concrete handle 7 and
fresh-locals counter 200. -/
theorem c6_amended_second_close_witness :
    NativeCall.free 7 ∉ (Database.close 200).2 ∧
    (Database.close 200).1 = Except.ok () ∧
    countFree (Database.close 200).2 = 1 :=
  c6_amended_second_close 7 200 (by decide)

/-- C7, counterexample to the claim as stated.  A scope that constructs a
Database with new (okBeh reports success, so the Database is Open) and lets
it go out of scope produces a trace with the single init call and zero free
calls: no close is performed on scope exit, because the handle type has no
destructor and close is not tied to the value. -/
theorem c7_claim_counterexample :
    newThenScopeEnd okBeh 0 = [NativeCall.init { error := 1, config := 0, db := 2 }] ∧
    countFree (newThenScopeEnd okBeh 0) = 0 := by
  refine ⟨rfl, rfl⟩

/-- C7, amended: the Database type enforces no scoped release.  It has no
destructor (no Drop implementation), so for every native behaviour and every
allocation state, a scope that opens a Database with new and ends performs no
native free call at all; pairing each successful open with a close is left
entirely to the caller, and close is a static method not connected to any
Database value. -/
theorem c7_amended_no_scoped_release : ∀ (beh : NativeInitBeh) (σ : Ptr),
    countFree (newThenScopeEnd beh σ) = 0 ∧
    Database.drop (Database.new beh σ).1 = [] :=
  fun _ _ => ⟨rfl, rfl⟩

/-- C8, confirmed: every call of Database::close returns Ok(()); the free
path never surfaces a DataStoreError to the caller. -/
theorem c8_close_always_ok : ∀ σ : Ptr,
    (Database.close σ).1 = Except.ok () ∧
    (Database.close σ).1 ≠ Except.error DataStoreError.Unknown := by
  intro σ
  refine ⟨rfl, ?_⟩
  intro h
  simp [Database.close] at h

/-- C9, confirmed: Database::default and Database::new have textually
identical bodies, so on every native behaviour and every allocation state
they perform the same single native init call with the same argument and
return equal Database values, memories and traces. -/
theorem c9_default_new_equivalent : ∀ (beh : NativeInitBeh) (σ : Ptr),
    Database.default beh σ = Database.new beh σ :=
  fun _ _ => rfl

/-- C10, confirmed: contains_key takes no arguments (not even a Database), is
a pure no-op returning unit, and its native-call trace is empty, so it reads
and modifies no Database state and invokes no native entry point. -/
theorem c10_contains_key_noop :
    Database.contains_key = ((), ([] : List NativeCall)) := rfl

/-! ## Claims about the build pipeline (build.rs) -/

/-- C3, counterexample to the claim as stated.  With a configure step that
exits with status 1 (and every process spawning correctly), the pipeline does
not abort: it still runs header preprocessing, still attempts and completes
binding generation, writes the bindings file, and main returns Ok. -/
theorem c3_claim_counterexample :
    cexCmakeOut.status = 1 ∧
    (BuildRs.happyPath allOff 4 "/repo" "/out" cexCmakeOut okOut okOut).1 = BuildOutcome.ok ∧
    BuildEvent.generateBindings "wrapper.expanded.h"
      ∈ (BuildRs.happyPath allOff 4 "/repo" "/out" cexCmakeOut okOut okOut).2 ∧
    BuildEvent.writeBindingsFile
      ∈ (BuildRs.happyPath allOff 4 "/repo" "/out" cexCmakeOut okOut okOut).2 := by
  refine ⟨rfl, rfl, ?_, ?_⟩ <;>
    simp [BuildRs.happyPath, BuildRs.main, allOff, linkLibs]

/-- C3, amended: a non-zero exit status from the configure or the compile
step does not abort the pipeline — the status is printed and never branched
on.  In any run whose other environment interactions succeed (the
parent-directory lookup, all three process spawns, all six terminal writes,
the OUT_DIR lookup, binding generation and writing the bindings file), even
with a failing configure or compile status the captured stdout and stderr
bytes of both steps are surfaced verbatim, header preprocessing and binding
generation still run, the bindings file is still written, and main returns
Ok. -/
theorem c3_amended_no_abort_on_nonzero_exit :
    ∀ (f : BackendFlagSet) (n : Nat) (src out : String) (c m g : CmdOutput),
    c.status ≠ 0 ∨ m.status ≠ 0 →
    (BuildRs.happyPath f n src out c m g).1 = BuildOutcome.ok ∧
    BuildEvent.surfaceOut c.stdout ∈ (BuildRs.happyPath f n src out c m g).2 ∧
    BuildEvent.surfaceErr c.stderr ∈ (BuildRs.happyPath f n src out c m g).2 ∧
    BuildEvent.surfaceOut m.stdout ∈ (BuildRs.happyPath f n src out c m g).2 ∧
    BuildEvent.surfaceErr m.stderr ∈ (BuildRs.happyPath f n src out c m g).2 ∧
    BuildEvent.generateBindings "wrapper.expanded.h"
      ∈ (BuildRs.happyPath f n src out c m g).2 ∧
    BuildEvent.writeBindingsFile ∈ (BuildRs.happyPath f n src out c m g).2 := by
  intro f n src out c m g _
  refine ⟨rfl, ?_, ?_, ?_, ?_, ?_, ?_⟩ <;>
    simp [BuildRs.happyPath, BuildRs.main]

/-- C3, witness: the amended statement at the concrete failing configure step
cexCmakeOut (status 1, diagnostics [65] / [66]). -/
theorem c3_amended_no_abort_witness :
    (BuildRs.happyPath allOff 4 "/repo" "/out" cexCmakeOut okOut okOut).1 = BuildOutcome.ok ∧
    BuildEvent.surfaceOut cexCmakeOut.stdout
      ∈ (BuildRs.happyPath allOff 4 "/repo" "/out" cexCmakeOut okOut okOut).2 ∧
    BuildEvent.surfaceErr cexCmakeOut.stderr
      ∈ (BuildRs.happyPath allOff 4 "/repo" "/out" cexCmakeOut okOut okOut).2 ∧
    BuildEvent.surfaceOut okOut.stdout
      ∈ (BuildRs.happyPath allOff 4 "/repo" "/out" cexCmakeOut okOut okOut).2 ∧
    BuildEvent.surfaceErr okOut.stderr
      ∈ (BuildRs.happyPath allOff 4 "/repo" "/out" cexCmakeOut okOut okOut).2 ∧
    BuildEvent.generateBindings "wrapper.expanded.h"
      ∈ (BuildRs.happyPath allOff 4 "/repo" "/out" cexCmakeOut okOut okOut).2 ∧
    BuildEvent.writeBindingsFile
      ∈ (BuildRs.happyPath allOff 4 "/repo" "/out" cexCmakeOut okOut okOut).2 :=
  c3_amended_no_abort_on_nonzero_exit allOff 4 "/repo" "/out" cexCmakeOut okOut okOut
    (Or.inl (by decide))

/-- C4, confirmed: for every BackendFlagSet the link directives name exactly
the libraries of the enabled storage backends — each bundle library is in the
link set precisely when its flag is enabled, and nothing else is ever in the
link set — and in Scenario B (only rocksdb enabled) the configure step
receives UKV_BUILD_ENGINE_ROCKSDB=1 with every other engine toggle 0 and the
link set is exactly the rocksdb library. -/
theorem c4_link_directives_exact :
    (∀ f : BackendFlagSet,
      (linkLibs f).contains "umem_bundle" = f.umem ∧
      (linkLibs f).contains "rocksdb_bundle" = f.rocksdb ∧
      (linkLibs f).contains "leveldb_bundle" = f.leveldb ∧
      (linkLibs f).all
        (fun x => x == "umem_bundle" || x == "rocksdb_bundle" || x == "leveldb_bundle") = true) ∧
    (cmakeArgs rocksdbOnly).contains "-DUKV_BUILD_ENGINE_ROCKSDB=1" = true ∧
    (cmakeArgs rocksdbOnly).contains "-DUKV_BUILD_ENGINE_UMEM=0" = true ∧
    (cmakeArgs rocksdbOnly).contains "-DUKV_BUILD_ENGINE_LEVELDB=0" = true ∧
    (cmakeArgs rocksdbOnly).contains "-DUKV_BUILD_API_FLIGHT_CLIENT=0" = true ∧
    (cmakeArgs rocksdbOnly).contains "-DUKV_BUILD_API_FLIGHT_SERVER=0" = true ∧
    linkLibs rocksdbOnly = ["rocksdb_bundle"] := by
  refine ⟨?_, by decide, by decide, by decide, by decide, by decide, by decide⟩
  intro f
  rcases f with ⟨u, l, r, fc, fs⟩
  cases u <;> cases l <;> cases r <;> cases fc <;> cases fs <;> decide

/-- C5, counterexample to the claim as stated.  With the flight-client and
flight-server toggles enabled, the configure step still receives both flight
definitions set to 0 and never receives them set to 1: these two toggles are
not mapped 1:1 from the flag set — their definitions are fixed at 0
independently of it. -/
theorem c5_claim_counterexample :
    flightOn.flight_client = true ∧
    flightOn.flight_server = true ∧
    (cmakeArgs flightOn).contains "-DUKV_BUILD_API_FLIGHT_CLIENT=1" = false ∧
    (cmakeArgs flightOn).contains "-DUKV_BUILD_API_FLIGHT_CLIENT=0" = true ∧
    (cmakeArgs flightOn).contains "-DUKV_BUILD_API_FLIGHT_SERVER=1" = false ∧
    (cmakeArgs flightOn).contains "-DUKV_BUILD_API_FLIGHT_SERVER=0" = true := by
  decide

/-- C5, amended: only the three storage toggles (umem, leveldb, rocksdb) are
mapped 1:1 to the same-named native build definition — the definition is 1
exactly when the toggle is enabled and 0 exactly when it is disabled — while
the flight-client and flight-server definitions are hardcoded to 0 for every
flag set, independent of the toggles. -/
theorem c5_amended_flag_mapping : ∀ f : BackendFlagSet,
    (cmakeArgs f).contains "-DUKV_BUILD_ENGINE_UMEM=1" = f.umem ∧
    (cmakeArgs f).contains "-DUKV_BUILD_ENGINE_UMEM=0" = !f.umem ∧
    (cmakeArgs f).contains "-DUKV_BUILD_ENGINE_LEVELDB=1" = f.leveldb ∧
    (cmakeArgs f).contains "-DUKV_BUILD_ENGINE_LEVELDB=0" = !f.leveldb ∧
    (cmakeArgs f).contains "-DUKV_BUILD_ENGINE_ROCKSDB=1" = f.rocksdb ∧
    (cmakeArgs f).contains "-DUKV_BUILD_ENGINE_ROCKSDB=0" = !f.rocksdb ∧
    (cmakeArgs f).contains "-DUKV_BUILD_API_FLIGHT_CLIENT=0" = true ∧
    (cmakeArgs f).contains "-DUKV_BUILD_API_FLIGHT_CLIENT=1" = false ∧
    (cmakeArgs f).contains "-DUKV_BUILD_API_FLIGHT_SERVER=0" = true ∧
    (cmakeArgs f).contains "-DUKV_BUILD_API_FLIGHT_SERVER=1" = false := by
  intro f
  rcases f with ⟨u, l, r, fc, fs⟩
  cases u <;> cases l <;> cases r <;> cases fc <;> cases fs <;> decide
